import Mathlib

/-!
Verification of the Dynamic Backgrounds Obsidian plugin.

The plugin styles UI panels with background images and translucent overlay
child nodes.  We shallowly embed the DOM fragment the plugin manipulates as a
rose tree of elements carrying a class list and the style properties the
plugin reads or writes, and we embed the plugin's routines
(`applyBackgroundAndOverlay`, `updateBackgrounds`, `removeBackgrounds`,
`startBackgroundChange`, `debounce`, `loadSettings`, the settings-tab
`onChange` handlers) as functions on that model.  Host-provided string
builtins (`String.prototype.split`, `trim`, `parseInt`) are modelled at the
character-list level.
-/

/-- The style properties the plugin reads or writes on an element.
`backgroundImage` is the raw CSS string the code assigns.
`backgroundColorAlpha` is the alpha channel of the `rgba(255, 255, 255, a)`
value the code assigns to an overlay's `backgroundColor` (`none` when the
property was never set). -/
structure Style where
  backgroundImage : String := ""
  backgroundColorAlpha : Option ℚ := none
deriving Repr, DecidableEq

/-- A live DOM element: a class list, its style, and its child elements in
document order. -/
inductive Elem where
  | node (classes : List String) (style : Style) (children : List Elem)
deriving Repr

def Elem.classes : Elem → List String
  | .node cs _ _ => cs

def Elem.style : Elem → Style
  | .node _ st _ => st

def Elem.children : Elem → List Elem
  | .node _ _ ch => ch

/-- `classList.contains`-style membership test on one element. -/
def Elem.hasClass (e : Elem) (c : String) : Bool :=
  e.classes.contains c

/-- The marker class `updateBackgrounds` adds to every styled element and
`removeBackgrounds` queries during teardown. -/
def markerClass : String := "dynamic-backgrounds"

/-- The class of the overlay child node created by
`applyBackgroundAndOverlay`. -/
def overlayClass : String := "dynamic-backgrounds-overlay"

/-- Does some element of the forest (a root or any of its descendants, in
document order) carry class `c`?  This is the truth value of
`querySelectorAll('.c').length > 0` over the forest, and
`e.querySelector('.c') != null` is `forestHasClass c e.children`. -/
def forestHasClass (c : String) : List Elem → Bool
  | [] => false
  | .node cs _ ch :: es => cs.contains c || forestHasClass c ch || forestHasClass c es

/-- Remove from the forest the first element (in document order, roots
before their subtrees) carrying class `c`, together with its subtree;
the forest is unchanged when no element matches.  This is
`querySelector('.c')?.remove()` as seen from the queried node's child list. -/
def removeFirstWithClass (c : String) : List Elem → List Elem
  | [] => []
  | .node cs st ch :: es =>
    if cs.contains c then es
    else if forestHasClass c ch then .node cs st (removeFirstWithClass c ch) :: es
    else .node cs st ch :: removeFirstWithClass c es

/-- Number of elements in the forest carrying class `c`
(`querySelectorAll('.c').length` over the full tree). -/
def countClassForest (c : String) : List Elem → Nat
  | [] => 0
  | .node cs _ ch :: es =>
    (if cs.contains c then 1 else 0) + countClassForest c ch + countClassForest c es

/-- Number of direct children of `e` carrying the overlay class. -/
def overlayChildCount (e : Elem) : Nat :=
  (e.children.filter (fun c => c.hasClass overlayClass)).length

/-- The overlay `div` created by `applyBackgroundAndOverlay`
(part_001 lines 92-95): class `dynamic-backgrounds-overlay`, background
color `rgba(255, 255, 255, opacity)`, no children. -/
def overlayDiv (opacity : ℚ) : Elem :=
  .node [overlayClass] { backgroundColorAlpha := some opacity } []

/-- The CSS value the code assigns to `style.backgroundImage`. -/
def cssUrl (backgroundImageUrl : String) : String :=
  "url(\"" ++ backgroundImageUrl ++ "\")"

/-- The body of the `elements.forEach` loop of `applyBackgroundAndOverlay`
(part_001 lines 88-97) acting on a single element: assign the background
image, and append an overlay child unless
`element.querySelector('.dynamic-backgrounds-overlay')` finds an overlay
among the element's descendants. -/
def applyBackgroundAndOverlayElem (backgroundImageUrl : String) (opacity : ℚ) :
    Elem → Elem
  | .node cs st ch =>
    let st2 := { st with backgroundImage := cssUrl backgroundImageUrl }
    if forestHasClass overlayClass ch then .node cs st2 ch
    else .node cs st2 (ch ++ [overlayDiv opacity])

/-- `applyBackgroundAndOverlay` over a whole forest for one selector:
the caller's `document.querySelectorAll(selector)` snapshot is processed in
document order, ancestors before descendants, so each element's
`querySelector` check sees its children as they were when the element is
visited, and the overlay appended to an element ends up after the element's
(subsequently processed) original children.  Selectors in the source are
single class names; the freshly appended overlay never matches one. -/
def applyAllForest (selector backgroundImageUrl : String) (opacity : ℚ) :
    List Elem → List Elem
  | [] => []
  | .node cs st ch :: es =>
    let processed := applyAllForest selector backgroundImageUrl opacity ch
    (if cs.contains selector then
       let st2 := { st with backgroundImage := cssUrl backgroundImageUrl }
       if forestHasClass overlayClass ch then Elem.node cs st2 processed
       else Elem.node cs st2 (processed ++ [overlayDiv opacity])
     else Elem.node cs st processed)
    :: applyAllForest selector backgroundImageUrl opacity es

/-- `elements.forEach(el => el.classList.add(cls))` over the
`querySelectorAll(selector)` snapshot (part_001 line 111). -/
def addClassForest (selector cls : String) : List Elem → List Elem
  | [] => []
  | .node cs st ch :: es =>
    .node (if cs.contains selector then (if cs.contains cls then cs else cs ++ [cls]) else cs)
      st (addClassForest selector cls ch)
    :: addClassForest selector cls es

/-- Number of elements in a forest (used as a termination measure). -/
def forestSize : List Elem → Nat
  | [] => 0
  | .node _ _ ch :: es => 1 + forestSize ch + forestSize es

theorem removeFirstWithClass_size_le (c : String) (xs : List Elem) :
    forestSize (removeFirstWithClass c xs) ≤ forestSize xs := by
  induction xs using removeFirstWithClass.induct c with
  | case1 => simp [removeFirstWithClass]
  | case2 cs st ch es h =>
    have h' : c ∈ cs := by simpa using h
    simp [removeFirstWithClass, h', forestSize]
    try omega
  | case3 cs st ch es h1 h2 ih =>
    have h1' : c ∉ cs := by simpa using h1
    simp [removeFirstWithClass, h1', h2, forestSize]
    try omega
  | case4 cs st ch es h1 h2 ih =>
    have h1' : c ∉ cs := by simpa using h1
    have h2' : forestHasClass c ch = false := by simpa using h2
    simp [removeFirstWithClass, h1', h2', forestSize]
    try omega

/-- `removeBackgrounds` (part_001 lines 71-77): iterate in document order
over the `querySelectorAll('.dynamic-backgrounds')` snapshot; on each marked
element clear `style.backgroundImage`, remove the marker class, and remove
the first overlay found among the element's descendants
(`el.querySelector('.dynamic-backgrounds-overlay')?.remove()`).  Ancestors
are visited before their descendants, exactly as the live NodeList is
iterated, so an ancestor's overlay removal is visible to the descendants
processed after it. -/
def removeBackgrounds : List Elem → List Elem
  | [] => []
  | .node cs st ch :: es =>
    (if cs.contains markerClass then
       Elem.node (cs.filter (fun x => x != markerClass)) { st with backgroundImage := "" }
         (removeBackgrounds (removeFirstWithClass overlayClass ch))
     else Elem.node cs st (removeBackgrounds ch))
    :: removeBackgrounds es
termination_by xs => forestSize xs
decreasing_by
  all_goals
    have h := removeFirstWithClass_size_le overlayClass ch
    simp [forestSize]
    try omega

/-- The per-target opacity map of the settings (part_001 lines 5-11). -/
structure OpacitySettings where
  viewContent : ℚ
  tabHeaderContainer : ℚ
  tabHeader : ℚ
  workspaceLeaf : ℚ
  kanbanItem : ℚ
deriving Repr, DecidableEq

/-- The plugin settings (part_001 lines 3-12). -/
structure MyPluginSettings where
  backgrounds : List String
  opacitySettings : OpacitySettings
deriving Repr, DecidableEq

/-- `DEFAULT_SETTINGS` (part_001 lines 14-27). -/
def DEFAULT_SETTINGS : MyPluginSettings :=
  { backgrounds :=
      ["https://example.com/image1.jpg",
       "https://example.com/image2.jpg",
       "https://example.com/image3.jpg"],
    opacitySettings :=
      { viewContent := 0.5
        tabHeaderContainer := 0.4
        tabHeader := 0.3
        workspaceLeaf := 0.6
        kanbanItem := 0.7 } }

/-- `getRandomBackground` (part_001 lines 79-83): pick
`backgrounds[randomIndex]` where `randomIndex` is the draw
`Math.floor(Math.random() * backgrounds.length)`.  The random draw is made
an explicit argument of the model. -/
def getRandomBackground (s : MyPluginSettings) (randomIndex : Nat) : String :=
  s.backgrounds.getD randomIndex ""

/-- The selector / opacity pairs of `updateBackgrounds`
(part_001 lines 101-107); selectors are single class names. -/
def updateSelectors (s : MyPluginSettings) : List (String × ℚ) :=
  [("view-content", s.opacitySettings.viewContent),
   ("workspace-tab-header-container", s.opacitySettings.tabHeaderContainer),
   ("workspace-tab-header", s.opacitySettings.tabHeader),
   ("view-header", s.opacitySettings.tabHeader),
   ("workspace-leaf", s.opacitySettings.workspaceLeaf)]

/-- The `selectors.forEach` loop of `updateBackgrounds` (part_001 lines
109-113): for each selector add the marker class to every match, then run
`applyBackgroundAndOverlay` on the matches.  Each `applyBackgroundAndOverlay`
call draws one random index (part_001 line 86), so one draw is consumed per
selector. -/
def applySelectors (s : MyPluginSettings) :
    List (String × ℚ) → List Nat → List Elem → List Elem
  | [], _, doc => doc
  | (selector, opacity) :: rest, draws, doc =>
    let doc1 := addClassForest selector markerClass doc
    let bg := getRandomBackground s (draws.headD 0)
    applySelectors s rest draws.tail (applyAllForest selector bg opacity doc1)

/-- `updateBackgrounds` (part_001 lines 100-114), with the sequence of
random draws made explicit. -/
def updateBackgrounds (s : MyPluginSettings) (draws : List Nat) (doc : List Elem) :
    List Elem :=
  applySelectors s (updateSelectors s) draws doc

/-- First direct overlay child of an element and its recorded alpha. -/
def firstOverlayAlpha (e : Elem) : Option ℚ :=
  match e.children.find? (fun c => c.hasClass overlayClass) with
  | some o => o.style.backgroundColorAlpha
  | none => none

/-- An element carrying a pre-existing overlay child whose background color
was created with alpha 1/2. -/
def elemWithOverlay : Elem := .node ["view-content"] {} [overlayDiv (1/2)]

/-- A fresh styling target with no overlay anywhere below it. -/
def elemVC : Elem := .node ["view-content"] {} []

/-- A `workspace-leaf` pane containing a `view-content` pane, the usual host
layout: both are styling targets of `updateBackgrounds`. -/
def leafDoc : List Elem :=
  [Elem.node ["workspace-leaf"] {} [Elem.node ["view-content"] {} []]]

/-- A tab-header container holding one tab header, the usual host layout:
both are styling targets of `updateBackgrounds`, the container by an earlier
selector than the header. -/
def containerDoc : List Elem :=
  [Elem.node ["workspace-tab-header-container"] {} [Elem.node ["workspace-tab-header"] {} []]]

/-- A document holding a single `view-content` pane. -/
def vcDoc : List Elem := [Elem.node ["view-content"] {} []]

/-- A fixed sequence of random draws (one per selector pass). -/
def drawsA : List Nat := [0, 0, 0, 0, 0]

/-- A second sequence of random draws, selecting the second background. -/
def drawsB : List Nat := [1, 1, 1, 1, 1]

def firstElem (xs : List Elem) : Elem := xs.headD (.node [] {} [])

/-- The background image applied to the first element of the document. -/
def firstBackgroundImage (xs : List Elem) : String :=
  (firstElem xs).style.backgroundImage

/-- The result of one `updateBackgrounds` pass over `leafDoc` with draws
`drawsA`: the inner `view-content` receives the overlay; the outer
`workspace-leaf`, processed by a later selector, is marked and given a
background but no overlay of its own, because `querySelector` already finds
the inner pane's overlay among its descendants. -/
def leafStyledDoc : List Elem :=
  [Elem.node ["workspace-leaf", "dynamic-backgrounds"]
    { backgroundImage := "url(\"https://example.com/image1.jpg\")" }
    [Elem.node ["view-content", "dynamic-backgrounds"]
      { backgroundImage := "url(\"https://example.com/image1.jpg\")" }
      [Elem.node ["dynamic-backgrounds-overlay"] { backgroundColorAlpha := some (0.5 : ℚ) } []]]]

/-- The result of one `updateBackgrounds` pass over `containerDoc` with
draws `drawsA`: the container is styled first (earlier selector) and gets
its own overlay as last child; the header inside it is styled next and also
gets its own overlay. -/
def containerStyledDoc : List Elem :=
  [Elem.node ["workspace-tab-header-container", "dynamic-backgrounds"]
    { backgroundImage := "url(\"https://example.com/image1.jpg\")" }
    [Elem.node ["workspace-tab-header", "dynamic-backgrounds"]
      { backgroundImage := "url(\"https://example.com/image1.jpg\")" }
      [Elem.node ["dynamic-backgrounds-overlay"] { backgroundColorAlpha := some (0.3 : ℚ) } []],
     Elem.node ["dynamic-backgrounds-overlay"] { backgroundColorAlpha := some (0.4 : ℚ) } []]]

/-- The result of `removeBackgrounds` on `containerStyledDoc`: processing
the container first, its `querySelector('.dynamic-backgrounds-overlay')`
returns the header's overlay (earlier in document order than the
container's own overlay), so that one is removed; the header, processed
next, then finds no overlay, and the container's own overlay node survives
the teardown. -/
def containerCleanedDoc : List Elem :=
  [Elem.node ["workspace-tab-header-container"] {}
    [Elem.node ["workspace-tab-header"] {} [],
     Elem.node ["dynamic-backgrounds-overlay"] { backgroundColorAlpha := some (0.4 : ℚ) } []]]

/-- One `updateBackgrounds` pass over `vcDoc` with draws `drawsA`. -/
def vcStyledA : List Elem :=
  [Elem.node ["view-content", "dynamic-backgrounds"]
    { backgroundImage := "url(\"https://example.com/image1.jpg\")" }
    [Elem.node ["dynamic-backgrounds-overlay"] { backgroundColorAlpha := some (0.5 : ℚ) } []]]

/-- One `updateBackgrounds` pass over `vcDoc` with draws `drawsB`. -/
def vcStyledB : List Elem :=
  [Elem.node ["view-content", "dynamic-backgrounds"]
    { backgroundImage := "url(\"https://example.com/image2.jpg\")" }
    [Elem.node ["dynamic-backgrounds-overlay"] { backgroundColorAlpha := some (0.5 : ℚ) } []]]

/-- The tick body of `startBackgroundChange` (part_000 lines 40-43):
`currentBackgroundIndex = (currentBackgroundIndex + 1) % backgrounds.length`. -/
def startBackgroundChangeTick (backgroundsLength currentBackgroundIndex : Nat) : Nat :=
  (currentBackgroundIndex + 1) % backgroundsLength

/-- The background used by the restyle the tick then invokes:
`updateBackgrounds` reads `backgrounds[currentBackgroundIndex]` after the
advance (part_000 lines 41-42 and 75-76). -/
def tickRestyleBackground (backgrounds : List String) (currentBackgroundIndex : Nat) : String :=
  backgrounds.getD (startBackgroundChangeTick backgrounds.length currentBackgroundIndex) ""

/-- The interval-timer state of a plugin instance: the ids of currently
active interval timers created by the instance, the `intervalId` field, and
the next fresh timer id the host will hand out. -/
structure SchedulerState where
  activeIntervals : List Nat
  intervalId : Nat
  nextTimerId : Nat
deriving Repr, DecidableEq

/-- `startBackgroundChange` (part_001 lines 446-451) as it affects the
timer state: `this.intervalId = window.setInterval(...)` registers a fresh
repeating timer and records its id.  It does not cancel anything itself. -/
def startBackgroundChange (s : SchedulerState) : SchedulerState :=
  { activeIntervals := s.activeIntervals ++ [s.nextTimerId]
    intervalId := s.nextTimerId
    nextTimerId := s.nextTimerId + 1 }

/-- `window.clearInterval(this.intervalId)`: cancel the timer with the
recorded id; a no-op when that id is not active. -/
def clearIntervalOp (s : SchedulerState) : SchedulerState :=
  { s with activeIntervals := s.activeIntervals.filter (fun x => x != s.intervalId) }

/-- The interval-setting `onChange` handler (part_001 lines 562-571):
clear the old interval, then restart the background switcher. -/
def intervalSettingChanged (s : SchedulerState) : SchedulerState :=
  startBackgroundChange (clearIntervalOp s)

/-- `onunload` (part_001 lines 526-529): clear the recorded interval. -/
def onunloadTimer (s : SchedulerState) : SchedulerState :=
  clearIntervalOp s

/-- `onload` (part_001 lines 431-438): the instance starts with no timers
and calls `startBackgroundChange` once. -/
def onloadTimer : SchedulerState :=
  startBackgroundChange { activeIntervals := [], intervalId := 0, nextTimerId := 0 }

/-- The events that can reach the timer state after `onload`. -/
inductive PluginEvent where
  | intervalSettingChangedEv
  | unloadEv
deriving Repr, DecidableEq

def stepTimer (s : SchedulerState) : PluginEvent → SchedulerState
  | .intervalSettingChangedEv => intervalSettingChanged s
  | .unloadEv => onunloadTimer s

/-- The timer state reached after `onload` followed by a sequence of
events. -/
def runTimer (evs : List PluginEvent) : SchedulerState :=
  evs.foldl stepTimer onloadTimer

/-- A persisted opacity record: each key optionally present. -/
structure PersistedOpacitySettings where
  viewContent : Option ℚ := none
  tabHeaderContainer : Option ℚ := none
  tabHeader : Option ℚ := none
  workspaceLeaf : Option ℚ := none
  kanbanItem : Option ℚ := none
deriving Repr, DecidableEq

/-- The JSON document `loadData()` returns: each top-level key optionally
present; `opacitySettings`, when present, may itself hold only some of its
keys. -/
structure PersistedData where
  backgrounds : Option (List String) := none
  opacitySettings : Option PersistedOpacitySettings := none
deriving Repr, DecidableEq

/-- A fully-present nested opacity record (the shape of the defaults). -/
def presentOpacity (o : OpacitySettings) : PersistedOpacitySettings :=
  { viewContent := some o.viewContent
    tabHeaderContainer := some o.tabHeaderContainer
    tabHeader := some o.tabHeader
    workspaceLeaf := some o.workspaceLeaf
    kanbanItem := some o.kanbanItem }

/-- The runtime shape of `Object.assign({}, DEFAULT_SETTINGS, data)`
(part_001 line 136): a top-level shallow merge, whose `opacitySettings`
component can be a record with missing keys when the persisted document
held one. -/
structure MergedSettings where
  backgrounds : List String
  opacitySettings : PersistedOpacitySettings
deriving Repr, DecidableEq

/-- `loadSettings` (part_001 lines 135-137):
`Object.assign({}, DEFAULT_SETTINGS, await this.loadData())`.  Each
top-level key present in the persisted data replaces the default value
wholesale; each missing top-level key keeps its default. -/
def loadSettings (data : PersistedData) : MergedSettings :=
  { backgrounds := data.backgrounds.getD DEFAULT_SETTINGS.backgrounds
    opacitySettings :=
      data.opacitySettings.getD (presentOpacity DEFAULT_SETTINGS.opacitySettings) }

/-- A persisted document whose `opacitySettings` record is present but
holds only the `viewContent` key. -/
def sparsePersistedData : PersistedData :=
  { opacitySettings := some { viewContent := some (0.9 : ℚ) } }

/-- `debounce` (part_001 lines 63-69): each call does
`clearTimeout(timeout); timeout = setTimeout(() => func(...), wait)`.
Timeline model: a call at time `t` cancels the pending timeout, if any, and
arranges for `func` to run at `t + wait`; the pending timeout fires when no
later call arrives strictly before its fire time.  For calls at
nondecreasing times `ts`, `debounceFireTimes wait ts` lists the times at
which `func` actually runs. -/
def debounceFireTimes (wait : Nat) : List Nat → List Nat
  | [] => []
  | [t] => [t + wait]
  | t1 :: t2 :: rest =>
    if t2 < t1 + wait then debounceFireTimes wait (t2 :: rest)
    else (t1 + wait) :: debounceFireTimes wait (t2 :: rest)

/-- `value.split(',')` of the host string library, at the character level:
split at every comma. -/
def splitOnComma : List Char → List (List Char)
  | [] => [[]]
  | c :: rest =>
    if c = ',' then [] :: splitOnComma rest
    else
      match splitOnComma rest with
      | [] => [[c]]
      | g :: gs => (c :: g) :: gs

/-- `url.trim()` of the host string library, at the character level: strip
leading and trailing whitespace. -/
def trimChars (cs : List Char) : List Char :=
  ((cs.dropWhile Char.isWhitespace).reverse.dropWhile Char.isWhitespace).reverse

/-- `value.split(',').map(url => url.trim())` (part_001 line 165). -/
def entriesOf (value : String) : List String :=
  (splitOnComma value.toList).map (fun cs => String.mk (trimChars cs))

/-- The backgrounds `onChange` handler (part_001 lines 164-168): keep
exactly the entries accepted by `isValidUrl`, in their original order.
`isValidUrl` (part_001 lines 176-184) wraps the host's `new URL`
constructor, returning `false` — after a console warning — instead of
throwing; it is modelled as an arbitrary boolean predicate on strings. -/
def backgroundsOnChange (isValidUrl : String → Bool) (value : String) : List String :=
  (entriesOf value).filter isValidUrl

/-- A concrete stand-in for the `new URL` well-formedness check, used to
instantiate theorems about `backgroundsOnChange`. -/
def sampleIsValidUrl (u : String) : Bool :=
  u.toList.take 8 == "https://".toList

/-- `ds.foldl`-style decimal digit accumulation, the numeric core of
`parseInt`. -/
def digitsToNat (ds : List Char) : Nat :=
  ds.foldl (fun a c => a * 10 + (c.toNat - 48)) 0

/-- The maximal leading run of decimal digits, as a number; `none` when
there is no leading digit (`parseInt` returns NaN). -/
def parseNatDigits (ds : List Char) : Option Nat :=
  let digs := ds.takeWhile Char.isDigit
  if digs.isEmpty then none else some (digitsToNat digs)

/-- The host's `parseInt(value)` in its default radix-10 reading: skip
leading whitespace, accept an optional sign, read the maximal run of
decimal digits and ignore everything after it; `none` models the NaN
returned when no digit is found.  (The hexadecimal `0x` prefix reading is
not modelled; no claim concerns it.) -/
def parseIntJS (s : String) : Option Int :=
  match s.toList.dropWhile Char.isWhitespace with
  | '-' :: rest => (parseNatDigits rest).map (fun n => -(n : Int))
  | '+' :: rest => (parseNatDigits rest).map (fun n => (n : Int))
  | cs => (parseNatDigits cs).map (fun n => (n : Int))

/-- The settings record of main.ts (lines 4-7).  `interval` is an
`Option Int`: `none` models the JS NaN that `parseInt` produces on
non-numeric input and that is stored and used as-is. -/
structure IntervalSettings where
  interval : Option Int
  backgrounds : List String
deriving Repr, DecidableEq

/-- The interval text-field `onChange` handler (main.ts lines 101-104):
`this.plugin.settings.interval = parseInt(value)` — no validation,
clamping, or rejection — then save. -/
def intervalOnChange (st : IntervalSettings) (value : String) : IntervalSettings :=
  { st with interval := parseIntJS value }

/-- The period `startBackgroundChange` hands to `window.setInterval`
(main.ts line 63): the stored `settings.interval`, unchanged. -/
def setIntervalPeriod (st : IntervalSettings) : Option Int :=
  st.interval

/-! ## Helper lemmas -/

theorem forestHasClass_append (c : String) (xs ys : List Elem) :
    forestHasClass c (xs ++ ys) = (forestHasClass c xs || forestHasClass c ys) := by
  induction xs with
  | nil => simp [forestHasClass]
  | cons e es ih =>
    obtain ⟨cs, st, ch⟩ := e
    simp [forestHasClass, ih, Bool.or_assoc]

theorem hasClass_eq_false_of_forestHasClass_eq_false (c : String) (xs : List Elem)
    (h : forestHasClass c xs = false) : ∀ e ∈ xs, e.hasClass c = false := by
  induction xs with
  | nil => simp
  | cons e es ih =>
    obtain ⟨cs, st, ch⟩ := e
    simp only [forestHasClass, Bool.or_eq_false_iff] at h
    intro x hx
    rcases List.mem_cons.mp hx with hx | hx
    · subst hx
      simp only [Elem.hasClass, Elem.classes]
      exact h.1.1
    · exact ih h.2 x hx

theorem filter_overlay_eq_nil (ch : List Elem)
    (h : forestHasClass overlayClass ch = false) :
    ch.filter (fun c => c.hasClass overlayClass) = [] := by
  rw [List.filter_eq_nil_iff]
  intro a ha
  simp [hasClass_eq_false_of_forestHasClass_eq_false overlayClass ch h a ha]

theorem overlayDiv_hasClass (op : ℚ) : (overlayDiv op).hasClass overlayClass = true := by
  simp [overlayDiv, Elem.hasClass, Elem.classes]

set_option maxHeartbeats 1000000 in
theorem updateBackgrounds_leafDoc_eq :
    updateBackgrounds DEFAULT_SETTINGS drawsA leafDoc = leafStyledDoc := by
  simp [updateBackgrounds, applySelectors, updateSelectors, addClassForest, applyAllForest,
    getRandomBackground, DEFAULT_SETTINGS, forestHasClass, leafDoc, drawsA, markerClass,
    overlayClass, overlayDiv, cssUrl, leafStyledDoc]

set_option maxHeartbeats 1000000 in
theorem updateBackgrounds_leafStyledDoc_eq :
    updateBackgrounds DEFAULT_SETTINGS drawsA leafStyledDoc = leafStyledDoc := by
  simp [updateBackgrounds, applySelectors, updateSelectors, addClassForest, applyAllForest,
    getRandomBackground, DEFAULT_SETTINGS, forestHasClass, drawsA, markerClass,
    overlayClass, overlayDiv, cssUrl, leafStyledDoc]

set_option maxHeartbeats 1000000 in
theorem updateBackgrounds_containerDoc_eq :
    updateBackgrounds DEFAULT_SETTINGS drawsA containerDoc = containerStyledDoc := by
  simp [updateBackgrounds, applySelectors, updateSelectors, addClassForest, applyAllForest,
    getRandomBackground, DEFAULT_SETTINGS, forestHasClass, containerDoc, drawsA, markerClass,
    overlayClass, overlayDiv, cssUrl, containerStyledDoc]

set_option maxHeartbeats 1000000 in
theorem removeBackgrounds_containerStyledDoc_eq :
    removeBackgrounds containerStyledDoc = containerCleanedDoc := by
  simp [removeBackgrounds, removeFirstWithClass, forestHasClass, containerStyledDoc,
    containerCleanedDoc, markerClass, overlayClass]

set_option maxHeartbeats 1000000 in
theorem updateBackgrounds_vcDoc_drawsA_eq :
    updateBackgrounds DEFAULT_SETTINGS drawsA vcDoc = vcStyledA := by
  simp [updateBackgrounds, applySelectors, updateSelectors, addClassForest, applyAllForest,
    getRandomBackground, DEFAULT_SETTINGS, forestHasClass, vcDoc, drawsA, markerClass,
    overlayClass, overlayDiv, cssUrl, vcStyledA]

set_option maxHeartbeats 1000000 in
theorem updateBackgrounds_vcDoc_drawsB_eq :
    updateBackgrounds DEFAULT_SETTINGS drawsB vcDoc = vcStyledB := by
  simp [updateBackgrounds, applySelectors, updateSelectors, addClassForest, applyAllForest,
    getRandomBackground, DEFAULT_SETTINGS, forestHasClass, vcDoc, drawsB, markerClass,
    overlayClass, overlayDiv, cssUrl, vcStyledB]

theorem startBackgroundChangeTick_iterate_eq (n : Nat) (hn : 0 < n) :
    ∀ (k i : Nat), i < n →
      (startBackgroundChangeTick n)^[k] i = (i + k) % n := by
  intro k
  induction k with
  | zero =>
    intro i hi
    simp [Nat.mod_eq_of_lt hi]
  | succ k ih =>
    intro i hi
    rw [Function.iterate_succ_apply]
    have h1 : startBackgroundChangeTick n i = (i + 1) % n := rfl
    rw [h1, ih ((i + 1) % n) (Nat.mod_lt _ hn), Nat.mod_add_mod]
    congr 1
    omega

/-! ## Claims -/

/-- C1 (counterexample): in the usual nested layout — a `workspace-leaf`
containing a `view-content` — the leaf is matched by the restyle pass, yet
two passes with unchanged settings leave it with zero overlay children, not
exactly one: the earlier `view-content` selector pass gives the inner pane
an overlay, and the leaf's `querySelector` check then finds that descendant
overlay and never appends the leaf's own. -/
theorem updateBackgrounds_twice_leaf_zero_overlays :
    (firstElem (updateBackgrounds DEFAULT_SETTINGS drawsA
        (updateBackgrounds DEFAULT_SETTINGS drawsA leafDoc))).hasClass "workspace-leaf" = true ∧
    overlayChildCount (firstElem (updateBackgrounds DEFAULT_SETTINGS drawsA
        (updateBackgrounds DEFAULT_SETTINGS drawsA leafDoc))) = 0 := by
  rw [updateBackgrounds_leafDoc_eq, updateBackgrounds_leafStyledDoc_eq]
  constructor <;>
    simp [overlayChildCount, firstElem, leafStyledDoc, Elem.children, Elem.hasClass,
      Elem.classes, overlayClass]

/-- C1 (amended): for an element with no overlay among its descendants,
the restyle pass appends exactly one overlay child, and a second pass with
unchanged settings finds that overlay by its marker class, changes the
child list in no way, and in particular appends no second overlay: exactly
one overlay child remains after either pass.  (For an element whose
descendants already carry an overlay — nested styling targets — the pass
appends none, so such an element keeps zero own overlay children.) -/
theorem applyBackgroundAndOverlay_single_overlay (bg : String) (op : ℚ) (e : Elem)
    (h : forestHasClass overlayClass e.children = false) :
    overlayChildCount (applyBackgroundAndOverlayElem bg op e) = 1 ∧
    (applyBackgroundAndOverlayElem bg op (applyBackgroundAndOverlayElem bg op e)).children
      = (applyBackgroundAndOverlayElem bg op e).children ∧
    overlayChildCount
      (applyBackgroundAndOverlayElem bg op (applyBackgroundAndOverlayElem bg op e)) = 1 := by
  obtain ⟨cs, st, ch⟩ := e
  simp only [Elem.children] at h
  have hfil := filter_overlay_eq_nil ch h
  have hasOv : forestHasClass overlayClass (ch ++ [overlayDiv op]) = true := by
    simp [forestHasClass_append, forestHasClass, overlayDiv]
  refine ⟨?_, ?_, ?_⟩
  · simp only [applyBackgroundAndOverlayElem, h, Bool.false_eq_true, if_false,
      overlayChildCount, Elem.children, List.filter_append, hfil, List.filter_cons,
      overlayDiv_hasClass, if_true, List.filter_nil, List.nil_append, List.length_cons,
      List.length_nil]
  · simp only [applyBackgroundAndOverlayElem, h, Bool.false_eq_true, if_false, Elem.children,
      hasOv, if_true]
  · simp only [applyBackgroundAndOverlayElem, h, Bool.false_eq_true, if_false, hasOv, if_true,
      overlayChildCount, Elem.children, List.filter_append, hfil, List.filter_cons,
      overlayDiv_hasClass, List.filter_nil, List.nil_append, List.length_cons, List.length_nil]

/-- C1 (witness): a fresh `view-content` element restyled twice carries
exactly one overlay child. -/
theorem applyBackgroundAndOverlay_single_overlay_witness :
    overlayChildCount (applyBackgroundAndOverlayElem "bg" ((1 : ℚ)/2)
      (applyBackgroundAndOverlayElem "bg" ((1 : ℚ)/2) elemVC)) = 1 :=
  (applyBackgroundAndOverlay_single_overlay "bg" (1/2) elemVC (by
    simp [elemVC, Elem.children, forestHasClass])).2.2

/-- C2 (counterexample): restyling an element that already carries an
overlay created with alpha 1/2, with the opacity setting now 7/10, leaves
the overlay's alpha at its creation value 1/2 — not at the current setting
as the claim states. -/
theorem restyle_does_not_update_overlay_alpha :
    firstOverlayAlpha (applyBackgroundAndOverlayElem "bg" (7/10) elemWithOverlay)
      = some (1/2) ∧
    (some ((1 : ℚ)/2) ≠ some ((7 : ℚ)/10)) := by
  constructor
  · simp [firstOverlayAlpha, applyBackgroundAndOverlayElem, elemWithOverlay, forestHasClass,
      overlayDiv, Elem.children, Elem.hasClass, Elem.classes, Elem.style, List.find?]
  · norm_num

/-- C2 (amended): on a restyle pass over an element that already carries an
overlay (matched by the marker class), the pass creates no new node and
leaves the child list — hence the existing overlay and its alpha — entirely
unchanged; the overlay's background-color alpha keeps the value it was
given when the overlay was created, whatever the current opacity setting. -/
theorem applyBackgroundAndOverlay_keeps_existing_overlay (bg : String) (op : ℚ) (e : Elem)
    (h : forestHasClass overlayClass e.children = true) :
    (applyBackgroundAndOverlayElem bg op e).children = e.children ∧
    firstOverlayAlpha (applyBackgroundAndOverlayElem bg op e) = firstOverlayAlpha e := by
  obtain ⟨cs, st, ch⟩ := e
  simp only [Elem.children] at h
  constructor
  · simp [applyBackgroundAndOverlayElem, h, Elem.children]
  · simp [firstOverlayAlpha, applyBackgroundAndOverlayElem, h, Elem.children, Elem.style]

/-- C2 (witness): an element holding an overlay of alpha 1/2, restyled with
opacity 7/10, keeps its children as they were. -/
theorem applyBackgroundAndOverlay_keeps_existing_overlay_witness :
    (applyBackgroundAndOverlayElem "bg" ((7 : ℚ)/10) elemWithOverlay).children
      = elemWithOverlay.children :=
  (applyBackgroundAndOverlay_keeps_existing_overlay "bg" (7/10) elemWithOverlay (by
    simp [elemWithOverlay, Elem.children, forestHasClass, overlayDiv])).1

/-- C3: each timer tick sets
`currentIndex = (currentIndex + 1) % backgrounds.length` and restyles with
the background at the new index; for a list of length `n`, `n` consecutive
ticks return the index to its starting value. -/
theorem startBackgroundChange_wraparound (n i : Nat) (h1 : 0 < n) (h2 : i < n) :
    (startBackgroundChangeTick n)^[n] i = i ∧
    (∀ backgrounds : List String, backgrounds.length = n →
      tickRestyleBackground backgrounds i = backgrounds.getD ((i + 1) % n) "") := by
  constructor
  · rw [startBackgroundChangeTick_iterate_eq n h1 n i h2, Nat.add_mod_right,
      Nat.mod_eq_of_lt h2]
  · intro bs hbs
    simp [tickRestyleBackground, startBackgroundChangeTick, hbs]

/-- C3 (witness): with 3 backgrounds, 3 ticks from index 1 return to 1. -/
theorem startBackgroundChange_wraparound_witness :
    (startBackgroundChangeTick 3)^[3] 1 = 1 :=
  (startBackgroundChange_wraparound 3 1 (by norm_num) (by norm_num)).1

/-- C4: after `onload` and any sequence of interval-setting changes and
unloads, at most one interval timer is active, and the re-entrant start
performed by the interval-setting `onChange` handler is exactly
clear-then-start. -/
theorem runTimer_at_most_one_interval (evs : List PluginEvent) :
    (runTimer evs).activeIntervals.length ≤ 1 ∧
    (∀ s : SchedulerState,
      intervalSettingChanged s = startBackgroundChange (clearIntervalOp s)) := by
  constructor
  · have inv : ∀ (l : List PluginEvent) (s : SchedulerState),
        (s.activeIntervals = [] ∨ s.activeIntervals = [s.intervalId]) →
        ((l.foldl stepTimer s).activeIntervals = [] ∨
          (l.foldl stepTimer s).activeIntervals = [(l.foldl stepTimer s).intervalId]) := by
      intro l
      induction l with
      | nil => intro s h; simpa using h
      | cons e rest ih =>
        intro s h
        rw [List.foldl_cons]
        apply ih
        cases e with
        | intervalSettingChangedEv =>
          right
          rcases h with h | h <;>
            simp [stepTimer, intervalSettingChanged, startBackgroundChange, clearIntervalOp, h]
        | unloadEv =>
          left
          rcases h with h | h <;>
            simp [stepTimer, onunloadTimer, clearIntervalOp, h]
    have h0 : onloadTimer.activeIntervals = [] ∨
        onloadTimer.activeIntervals = [onloadTimer.intervalId] := by
      right
      simp [onloadTimer, startBackgroundChange]
    rcases inv evs onloadTimer h0 with h | h <;>
      · show (evs.foldl stepTimer onloadTimer).activeIntervals.length ≤ 1
        rw [h]
        simp
  · intro s
    rfl

/-- C5 (code bug): teardown is not complete.  Starting from the usual
layout of a tab-header container holding a tab header, one restyle pass
styles both; `removeBackgrounds` then strips every marker class, but the
container's `querySelector('.dynamic-backgrounds-overlay')` removes the
header's overlay (first in document order) instead of the container's own,
which survives: one overlay node remains in the tree after teardown. -/
theorem removeBackgrounds_leaves_overlay_node :
    countClassForest overlayClass
      (removeBackgrounds (updateBackgrounds DEFAULT_SETTINGS drawsA containerDoc)) = 1 ∧
    countClassForest markerClass
      (removeBackgrounds (updateBackgrounds DEFAULT_SETTINGS drawsA containerDoc)) = 0 := by
  rw [updateBackgrounds_containerDoc_eq, removeBackgrounds_containerStyledDoc_eq]
  constructor <;>
    simp [countClassForest, containerCleanedDoc, overlayClass, markerClass]

/-- C6 (counterexample): loading a persisted document whose
`opacitySettings` is present but holds only `viewContent` yields a merged
`opacitySettings` with no `tabHeader` value at all — the nested key missing
from the partially present record does not keep its default 3/10, because
`Object.assign` replaces the whole nested record. -/
theorem loadSettings_drops_nested_defaults :
    (loadSettings sparsePersistedData).opacitySettings.tabHeader = none ∧
    ((none : Option ℚ) ≠ some DEFAULT_SETTINGS.opacitySettings.tabHeader) := by
  constructor
  · simp [loadSettings, sparsePersistedData]
  · simp

/-- C6 (amended): `loadSettings` performs a top-level shallow merge: a
top-level key present in the persisted data replaces the default value
wholesale — including a whole nested record, whose missing inner keys do
not inherit defaults — while a top-level key missing from the persisted
data keeps its default value. -/
theorem loadSettings_shallow_merge (d : PersistedData) :
    (d.opacitySettings = none →
      (loadSettings d).opacitySettings = presentOpacity DEFAULT_SETTINGS.opacitySettings) ∧
    (∀ p, d.opacitySettings = some p → (loadSettings d).opacitySettings = p) ∧
    (d.backgrounds = none → (loadSettings d).backgrounds = DEFAULT_SETTINGS.backgrounds) ∧
    (∀ bs, d.backgrounds = some bs → (loadSettings d).backgrounds = bs) := by
  refine ⟨?_, ?_, ?_, ?_⟩
  · intro h; simp [loadSettings, h]
  · intro p h; simp [loadSettings, h]
  · intro h; simp [loadSettings, h]
  · intro bs h; simp [loadSettings, h]

/-- C6 (witness): the sparse persisted document's nested record replaces
the defaults wholesale. -/
theorem loadSettings_shallow_merge_witness :
    (loadSettings sparsePersistedData).opacitySettings
      = { viewContent := some (0.9 : ℚ) } :=
  (loadSettings_shallow_merge sparsePersistedData).2.1
    { viewContent := some (0.9 : ℚ) } rfl

/-- C7 (counterexample): the restyle pass is not pure with respect to the
settings and current index alone: with equal settings and an identical
document, two executions differing only in the `Math.random` draws apply
different background values to the matched element. -/
theorem updateBackgrounds_depends_on_random_draws :
    firstBackgroundImage (updateBackgrounds DEFAULT_SETTINGS drawsA vcDoc)
      ≠ firstBackgroundImage (updateBackgrounds DEFAULT_SETTINGS drawsB vcDoc) := by
  rw [updateBackgrounds_vcDoc_drawsA_eq, updateBackgrounds_vcDoc_drawsB_eq]
  simp only [firstBackgroundImage, firstElem, vcStyledA, vcStyledB, Elem.style,
    List.headD_cons]
  decide

/-- C7 (amended): the random draw influences exactly the applied background
value: the element's resulting child list, classes, overlay presence and
overlay color are independent of the drawn background, so the pass is pure
with respect to the settings, the current index and the random draws
together (the draws being the extra input the original claim excludes). -/
theorem applyBackgroundAndOverlay_draw_affects_only_background
    (bg1 bg2 : String) (op : ℚ) (e : Elem) :
    (applyBackgroundAndOverlayElem bg1 op e).children
      = (applyBackgroundAndOverlayElem bg2 op e).children ∧
    (applyBackgroundAndOverlayElem bg1 op e).classes = e.classes ∧
    (applyBackgroundAndOverlayElem bg1 op e).style.backgroundColorAlpha
      = e.style.backgroundColorAlpha ∧
    firstOverlayAlpha (applyBackgroundAndOverlayElem bg1 op e)
      = firstOverlayAlpha (applyBackgroundAndOverlayElem bg2 op e) := by
  obtain ⟨cs, st, ch⟩ := e
  by_cases h : forestHasClass overlayClass ch = true
  · simp [applyBackgroundAndOverlayElem, h, Elem.children, Elem.classes, Elem.style,
      firstOverlayAlpha]
  · simp [applyBackgroundAndOverlayElem, h, Elem.children, Elem.classes, Elem.style,
      firstOverlayAlpha]

/-- C8: the debounce is trailing-edge: when every call arrives strictly
within the quiet window of its predecessor, exactly one invocation results,
scheduled by the last call. -/
theorem debounce_trailing_edge (wait : Nat) (ts : List Nat) (hne : ts ≠ [])
    (h : ts.Chain' (fun a b => b < a + wait)) :
    debounceFireTimes wait ts = [ts.getLast hne + wait] := by
  induction ts with
  | nil => simp at hne
  | cons t rest ih =>
    cases rest with
    | nil => simp [debounceFireTimes]
    | cons t2 rest2 =>
      have h12 : t2 < t + wait := (List.chain'_cons.mp h).1
      have htl : (t2 :: rest2).Chain' (fun a b => b < a + wait) := (List.chain'_cons.mp h).2
      rw [debounceFireTimes]
      simp only [h12, if_true]
      have hgl : (t :: t2 :: rest2).getLast hne = (t2 :: rest2).getLast (by simp) :=
        List.getLast_cons (by simp)
      rw [ih (by simp) htl, hgl]

/-- C8 (witness): five events at times 0..4, all within a 300 ms quiet
window of their predecessor, produce exactly one invocation, the one
scheduled by the last event. -/
theorem debounce_trailing_edge_witness :
    debounceFireTimes 300 [0, 1, 2, 3, 4] = [4 + 300] := by
  rw [debounce_trailing_edge 300 [0, 1, 2, 3, 4] (by decide) (by simp [List.chain'_cons])]
  simp

/-- C9: the saved backgrounds list is exactly the entries of the
(comma-split, trimmed) user input accepted by the URL check, in their
original order: the result is the filter of the entries, a sublist of them
(order preserved), every saved entry passes the check, every entry that
fails the check is dropped, and every passing entry is saved — the handler
is a total function, so a failing entry never blocks saving the rest. -/
theorem backgroundsOnChange_keeps_valid_in_order
    (isValidUrl : String → Bool) (value : String) :
    backgroundsOnChange isValidUrl value = (entriesOf value).filter isValidUrl ∧
    List.Sublist (backgroundsOnChange isValidUrl value) (entriesOf value) ∧
    (∀ u ∈ backgroundsOnChange isValidUrl value, isValidUrl u = true) ∧
    (∀ u ∈ entriesOf value, isValidUrl u = true → u ∈ backgroundsOnChange isValidUrl value) := by
  refine ⟨rfl, List.filter_sublist _, ?_, ?_⟩
  · intro u hu
    exact (List.mem_filter.mp hu).2
  · intro u hu hv
    exact List.mem_filter.mpr ⟨hu, hv⟩

/-- C9 (witness): for the input `"https://a.example, nope"` the valid entry
is saved while the invalid one is dropped. -/
theorem backgroundsOnChange_keeps_valid_in_order_witness :
    "https://a.example" ∈ backgroundsOnChange sampleIsValidUrl "https://a.example, nope" ∧
    "nope" ∉ backgroundsOnChange sampleIsValidUrl "https://a.example, nope" := by
  constructor
  · exact (backgroundsOnChange_keeps_valid_in_order sampleIsValidUrl
      "https://a.example, nope").2.2.2 "https://a.example" (by decide) (by decide)
  · intro hmem
    have := (backgroundsOnChange_keeps_valid_in_order sampleIsValidUrl
      "https://a.example, nope").2.2.1 "nope" hmem
    simp [sampleIsValidUrl] at this

/-- C10: the stored interval is `parseInt(value)` with no validation,
clamping or rejection — the empty and non-numeric inputs store NaN
(modelled `none`), arbitrary integers including negative ones are stored
as-is — and the stored value is used unchanged as the timer period. -/
theorem intervalOnChange_stores_parseInt (st : IntervalSettings) (value : String) :
    (intervalOnChange st value).interval = parseIntJS value ∧
    setIntervalPeriod (intervalOnChange st value) = parseIntJS value ∧
    parseIntJS "" = none ∧
    parseIntJS "abc" = none ∧
    parseIntJS "2500" = some 2500 ∧
    parseIntJS "-5" = some (-5) := by
  refine ⟨rfl, rfl, by decide, by decide, by decide, by decide⟩
